import Mathlib

/-!
Shallow embedding of the relevance-ranking search core of the `clean-code-mcp`
repository: the tokenizer (`src/search/tokenizer.ts`), the scorer and ranker
(`src/search/scoring.ts`), and the principle corpus (`src/data/principles.ts`).

Strings are modelled at the level of their character sequences (`List Char`,
the `data` field of Lean's `String`).  JavaScript string operations are
embedded as follows:
* `s.toLowerCase()`  ↦ `List.map Char.toLower s.data` (the repository's data
  and queries are basic-latin text, where the two agree);
* `s.trim()`         ↦ `jsTrim` (drop whitespace from both ends);
* `s.includes(sub)`  ↦ `containsSub s.data sub.data` (substring containment);
* a JavaScript `Map` ↦ an association list with `Map.get`/`Map.set` semantics
  (`mapGet`/`mapSet`: `set` overwrites in place an existing key, keeping its
  insertion position, and appends a fresh key at the end);
* `Array.prototype.sort` with comparator `(a, b) => b.score - a.score` ↦
  `List.insertionSort (fun a b => b.2 ≤ a.2)`.  The JavaScript sort is
  specified to be stable, and a stable sort by a total preorder is unique,
  so the stable insertion sort denotes the same function.
-/

/-- The record type of `src/data/principles.ts` (`CleanCodePrinciple`), with the
fields the search core reads.  `category` is a `String`: the TypeScript type
`PrincipleCategory` is a union of string literals and is consumed as a plain
string by the scorer (`principle.category.includes(...)`).  The `examples`
field is opaque to the search core (never read by scoring or ranking) and is
omitted. -/
structure CleanCodePrinciple where
  id : String
  name : String
  category : String
  description : String
  tags : List String
deriving DecidableEq

/-- JavaScript `String.prototype.trim`: remove whitespace from both ends of a
character sequence. -/
def jsTrim (cs : List Char) : List Char :=
  ((cs.dropWhile Char.isWhitespace).reverse.dropWhile Char.isWhitespace).reverse

/-- The character sequence of `s.toLowerCase()`. -/
def lowerData (s : String) : List Char :=
  s.data.map Char.toLower

/-- JavaScript `s.includes(sub)`: `sub` occurs in `s` as a contiguous
substring (the empty needle occurs in every string). -/
def containsSub (s sub : List Char) : Bool :=
  match s with
  | [] => sub.isEmpty
  | _ :: t => sub.isPrefixOf s || containsSub t sub

/-- `scorePrincipleByQuery` of `src/search/scoring.ts`: normalize the query
(lowercase, trim); return 100 outright on an exact id match; otherwise
accumulate +80 for a name substring hit, +70 per exactly-matching tag or else
+50 per partially-matching tag (either containment direction), +30 for a
description substring hit and +20 for a category substring hit. -/
def scorePrincipleByQuery (principle : CleanCodePrinciple) (query : String) : Int :=
  let normalizedQuery : List Char := jsTrim (lowerData query)
  if principle.id.data = normalizedQuery then 100
  else
    let score : Int := 0
    let score := if containsSub (lowerData principle.name) normalizedQuery then score + 80 else score
    let score := principle.tags.foldl (fun score tag =>
      if tag.data = normalizedQuery then score + 70
      else if containsSub tag.data normalizedQuery || containsSub normalizedQuery tag.data then
        score + 50
      else score) score
    let score := if containsSub (lowerData principle.description) normalizedQuery then score + 30 else score
    let score := if containsSub principle.category.data normalizedQuery then score + 20 else score
    score

/-- JavaScript `Map.prototype.get` on an association list. -/
def mapGet (m : List (String × Int)) (k : String) : Option Int :=
  match m with
  | [] => none
  | p :: rest => if p.1 = k then some p.2 else mapGet rest k

/-- JavaScript `Map.prototype.set` on an association list: overwrite an
existing key in place (its insertion position is kept), append a fresh key. -/
def mapSet (m : List (String × Int)) (k : String) (v : Int) : List (String × Int) :=
  match m with
  | [] => [(k, v)]
  | p :: rest => if p.1 = k then (k, v) :: rest else p :: mapSet rest k v

/-- `scorePrincipleByTokens` of `src/search/scoring.ts`: sum the single-query
score of every token, then add `categoryBoosts.get(principle.category) ?? 0`
times the boost multiplier 15. -/
def scorePrincipleByTokens (principle : CleanCodePrinciple) (tokens : List String)
    (categoryBoosts : List (String × Int)) : Int :=
  let score := tokens.foldl (fun score token => score + scorePrincipleByQuery principle token) 0
  let boost := (mapGet categoryBoosts principle.category).getD 0
  score + boost * 15

/-- `rankPrinciples` of `src/search/scoring.ts`: pair every principle with its
score, drop non-positive scores, sort by score descending (stable, as
JavaScript's `sort` is), and return the principles. -/
def rankPrinciples {α : Type} (principles : List α) (scoreFn : α → Int) : List α :=
  (((principles.map (fun principle => (principle, scoreFn principle))).filter
      (fun x => 0 < x.2)).insertionSort (fun a b => b.2 ≤ a.2)).map (fun x => x.1)

/-- The `STOP_WORDS` set of `src/search/tokenizer.ts`. -/
def STOP_WORDS : List String :=
  ["a", "an", "the", "is", "it", "to", "in", "of", "and", "or", "for",
   "on", "at", "by", "with", "from", "as", "be", "this", "that", "not",
   "but", "are", "was", "were", "been", "being", "have", "has", "had",
   "do", "does", "did", "will", "would", "could", "should", "may",
   "might", "can", "shall", "i", "you", "we", "they", "he", "she",
   "my", "your", "our", "their", "its", "me", "us", "them", "what",
   "how", "when", "where", "which", "who", "whom", "why"]

/-- The `CATEGORY_KEYWORDS` table of `src/search/tokenizer.ts`, as an
association list from keyword to category. -/
def CATEGORY_KEYWORDS : List (String × String) :=
  [("name", "naming"), ("names", "naming"), ("naming", "naming"),
   ("variable", "naming"), ("variables", "naming"),
   ("function", "functions"), ("functions", "functions"),
   ("method", "functions"), ("methods", "functions"),
   ("argument", "functions"), ("arguments", "functions"),
   ("parameter", "functions"), ("parameters", "functions"),
   ("nesting", "functions"), ("nested", "functions"),
   ("guard", "functions"), ("conditional", "functions"), ("if-else", "functions"),
   ("comment", "comments"), ("comments", "comments"),
   ("documentation", "comments"), ("javadoc", "comments"), ("jsdoc", "comments"),
   ("format", "formatting"), ("formatting", "formatting"),
   ("indentation", "formatting"), ("whitespace", "formatting"), ("spacing", "formatting"),
   ("error", "error-handling"), ("errors", "error-handling"),
   ("exception", "error-handling"), ("exceptions", "error-handling"),
   ("try-catch", "error-handling"), ("null", "error-handling"),
   ("test", "unit-testing"), ("tests", "unit-testing"), ("testing", "unit-testing"),
   ("unit", "unit-testing"), ("assert", "unit-testing"), ("assertion", "unit-testing"),
   ("class", "classes"), ("classes", "classes"),
   ("cohesion", "classes"), ("responsibility", "classes"),
   ("solid", "solid"), ("srp", "solid"), ("ocp", "solid"),
   ("lsp", "solid"), ("isp", "solid"), ("dip", "solid"),
   ("smell", "code-smells"), ("smells", "code-smells"), ("code-smell", "code-smells"),
   ("duplication", "code-smells"), ("magic-number", "code-smells"), ("dead-code", "code-smells"),
   ("object", "objects-and-data-structures"), ("objects", "objects-and-data-structures"),
   ("data", "objects-and-data-structures"), ("dto", "objects-and-data-structures"),
   ("demeter", "objects-and-data-structures"), ("encapsulation", "objects-and-data-structures"),
   ("concurrency", "concurrency"), ("async", "concurrency"),
   ("parallel", "concurrency"), ("thread", "concurrency"), ("race", "concurrency"),
   ("system", "systems"), ("systems", "systems"),
   ("injection", "systems"), ("dependency-injection", "systems"),
   ("emergence", "emergence"), ("simple", "emergence"),
   ("simplicity", "emergence"), ("design", "emergence")]

/-- Lookup in the `CATEGORY_KEYWORDS` record: `CATEGORY_KEYWORDS[token]`,
`none` for an absent key (in the source an absent key yields `undefined`,
which fails the truthiness test; every present value is a non-empty string
and so is truthy). -/
def categoryKeyword (token : String) : Option String :=
  (CATEGORY_KEYWORDS.find? (fun kv => kv.1 = token)).map (fun kv => kv.2)

/-- A character kept by the tokenizer's regular expression `[a-z0-9\-]`
(stated on code points: `a`–`z` is 97–122, `0`–`9` is 48–57, `-` is 45). -/
def isTokenChar (c : Char) : Bool :=
  (97 ≤ c.toNat && c.toNat ≤ 122) || (48 ≤ c.toNat && c.toNat ≤ 57) || c.toNat == 45

/-- Maximal runs of token characters of a character sequence, accumulating the
current run in `acc`.  `tokenize`'s pipeline — replace every maximal run of
non-token characters by one space, split on whitespace runs — produces exactly
these runs, plus possibly empty fragments at the two ends, which the
`length > 1` filter below removes. -/
def runsAux (acc : List Char) : List Char → List (List Char)
  | [] => if acc = [] then [] else [acc]
  | c :: rest =>
    if isTokenChar c then runsAux (acc ++ [c]) rest
    else if acc = [] then runsAux [] rest
    else acc :: runsAux [] rest

/-- `tokenize` of `src/search/tokenizer.ts`: lowercase, replace every run of
characters outside `[a-z0-9\-]` by a space, split on whitespace, and keep the
pieces of length greater than 1. -/
def tokenize (text : String) : List String :=
  ((runsAux [] (lowerData text)).map (fun cs => String.mk cs)).filter
    (fun token => 1 < token.length)

/-- `removeStopWords` of `src/search/tokenizer.ts`: drop the tokens contained
in `STOP_WORDS`. -/
def removeStopWords (tokens : List String) : List String :=
  tokens.filter (fun token => !(STOP_WORDS.contains token))

/-- `detectCategoryBoosts` of `src/search/tokenizer.ts`: for each token in
order, look the token up in the keyword table and, on a hit, increment that
category's counter (starting from 0). -/
def detectCategoryBoosts (tokens : List String) : List (String × Int) :=
  tokens.foldl (fun boosts token =>
    match categoryKeyword token with
    | some category => mapSet boosts category ((mapGet boosts category).getD 0 + 1)
    | none => boosts) []

/-- Reassembly of a token list into one text, used to state idempotence of the
tokenize-and-strip pipeline: the tokens joined by single spaces. -/
def joinWithSpace : List String → String
  | [] => ""
  | [t] => t
  | t :: rest => t ++ " " ++ joinWithSpace rest

/-- The contribution of one tag under `scorePrincipleByQuery`'s tag loop: 70
for an exact match with the normalized query, else 50 for a partial match in
either containment direction, else 0. -/
def tagContribution (normalizedQuery : List Char) (tag : String) : Int :=
  if tag.data = normalizedQuery then 70
  else if containsSub tag.data normalizedQuery || containsSub normalizedQuery tag.data then 50
  else 0
/-- The full corpus of `src/data/principles.ts` (`PRINCIPLES`), with the fields the
search core reads: `id`, `name`, `category`, `description`, `tags`. The `examples`
field of the source records is opaque to scoring and ranking (never read by the
search core) and is omitted from the embedding. -/
def PRINCIPLES : List CleanCodePrinciple := [
  { id := "use-intention-revealing-names",
    name := "Use Intention-Revealing Names",
    category := "naming",
    description := "Variable, function, and class names should reveal why they exist, what they do, and how they are used. A name that requires a comment to explain its purpose fails to reveal its intention.",
    tags := ["naming", "readability", "intention", "variables", "clarity"] },
  { id := "avoid-disinformation",
    name := "Avoid Disinformation",
    category := "naming",
    description := "Do not use names that mislead the reader about the meaning of a variable or its type. Avoid using names like 'accountList' when the variable is not actually a List. Avoid names that vary in small ways.",
    tags := ["naming", "misleading", "disinformation", "types", "clarity"] },
  { id := "make-meaningful-distinctions",
    name := "Make Meaningful Distinctions",
    category := "naming",
    description := "If names must be different, they should also mean something different. Number-series naming (a1, a2, ...) and noise words (Info, Data, the) are not meaningful distinctions.",
    tags := ["naming", "distinction", "noise-words", "clarity"] },
  { id := "use-pronounceable-names",
    name := "Use Pronounceable Names",
    category := "naming",
    description := "Names should be pronounceable so they can be discussed without sounding foolish. Programming is a social activity; if you can't pronounce a name, you can't discuss it without looking silly.",
    tags := ["naming", "pronounceable", "communication", "readability"] },
  { id := "use-searchable-names",
    name := "Use Searchable Names",
    category := "naming",
    description := "Single-letter names and numeric constants are hard to locate across a body of text. Longer names are easier to search for. The length of a name should correspond to the size of its scope.",
    tags := ["naming", "searchable", "constants", "magic-numbers", "scope"] },
  { id := "avoid-encodings",
    name := "Avoid Encodings",
    category := "naming",
    description := "Hungarian notation, member prefixes (m_), and interface prefixes (I) add noise. Modern editors and languages make these encodings unnecessary. They add cognitive overhead and make names harder to read.",
    tags := ["naming", "encodings", "hungarian-notation", "prefixes", "interfaces"] },
  { id := "class-names-should-be-nouns",
    name := "Class Names Should Be Nouns",
    category := "naming",
    description := "Classes and objects should have noun or noun phrase names. A class name should not be a verb. Avoid generic names like Manager, Processor, Data, or Info — prefer specific names that describe what the class represents.",
    tags := ["naming", "classes", "nouns", "verbs", "object-oriented"] },
  { id := "method-names-should-be-verbs",
    name := "Method Names Should Be Verbs",
    category := "naming",
    description := "Methods should have verb or verb phrase names. Accessors, mutators, and predicates should be prefixed with get, set, and is according to convention.",
    tags := ["naming", "methods", "verbs", "accessors", "predicates"] },
  { id := "pick-one-word-per-concept",
    name := "Pick One Word Per Concept",
    category := "naming",
    description := "Use one word for one abstract concept and stick with it. It is confusing to have fetch, retrieve, and get as equivalent methods of different classes. A consistent lexicon makes code easier to navigate.",
    tags := ["naming", "consistency", "vocabulary", "concept", "lexicon"] },
  { id := "use-solution-domain-names",
    name := "Use Solution Domain Names",
    category := "naming",
    description := "Use computer science terms, algorithm names, pattern names, and math terms when appropriate. The people reading your code are programmers — names like 'visitor', 'queue', or 'jobQueue' are clear to them.",
    tags := ["naming", "domain", "patterns", "technical", "vocabulary"] },
  { id := "keep-functions-small",
    name := "Keep Functions Small",
    category := "functions",
    description := "Functions should be small. The first rule of functions is that they should be small. The second rule is that they should be smaller than that. Small functions are easier to read, understand, and maintain.",
    tags := ["functions", "small", "size", "readability", "decomposition"] },
  { id := "do-one-thing",
    name := "Do One Thing",
    category := "functions",
    description := "Functions should do one thing. They should do it well. They should do it only. If a function does steps that are one level of abstraction below the stated name of the function, it is doing one thing.",
    tags := ["functions", "single-responsibility", "one-thing", "srp", "decomposition"] },
  { id := "one-level-of-abstraction",
    name := "One Level of Abstraction per Function",
    category := "functions",
    description := "Mixing levels of abstraction within a function is confusing. Readers may not be able to tell whether an expression is an essential concept or a detail. Keep each function at a single, consistent level of abstraction.",
    tags := ["functions", "abstraction", "levels", "readability", "stepdown"] },
  { id := "use-descriptive-names",
    name := "Use Descriptive Names for Functions",
    category := "functions",
    description := "A long descriptive name is better than a short enigmatic name. A long descriptive name is better than a long descriptive comment. Don't be afraid to make a name long if it improves clarity.",
    tags := ["functions", "naming", "descriptive", "readability", "self-documenting"] },
  { id := "minimize-function-arguments",
    name := "Minimize Function Arguments",
    category := "functions",
    description := "The ideal number of arguments for a function is zero (niladic). Next comes one (monadic), followed by two (dyadic). Three arguments (triadic) should be avoided. More than three requires very special justification. Use objects to group related arguments.",
    tags := ["functions", "arguments", "parameters", "objects", "arity"] },
  { id := "avoid-flag-arguments",
    name := "Avoid Flag Arguments",
    category := "functions",
    description := "Boolean arguments loudly declare that the function does more than one thing. They are confusing and should be avoided. Instead, split the function into two with descriptive names.",
    tags := ["functions", "boolean", "flags", "splitting", "srp"] },
  { id := "avoid-side-effects-in-functions",
    name := "Avoid Side Effects",
    category := "functions",
    description := "Side effects are lies. A function promises to do one thing, but it also does hidden things — modifying globals, writing files, or changing passed-in arguments. If a function must have a side effect, make it explicit in the name.",
    tags := ["functions", "side-effects", "purity", "hidden-behavior", "coupling"] },
  { id := "command-query-separation",
    name := "Command-Query Separation",
    category := "functions",
    description := "Functions should either do something (command) or answer something (query), but not both. Doing both leads to confusion. A function that changes state should not return a value, and vice versa.",
    tags := ["functions", "command-query", "cqs", "separation", "design"] },
  { id := "prefer-exceptions-to-error-codes",
    name := "Prefer Exceptions to Returning Error Codes",
    category := "functions",
    description := "Returning error codes leads to deeply nested structures and forces callers to deal with errors immediately. Exceptions allow error processing to be separated from the happy path, making code cleaner.",
    tags := ["functions", "errors", "exceptions", "error-codes", "nesting"] },
  { id := "dry-principle",
    name := "Don't Repeat Yourself (DRY)",
    category := "functions",
    description := "Duplication is the root of all evil in software. Every piece of knowledge must have a single, unambiguous, authoritative representation within a system. Duplicated code means duplicated bugs and duplicated maintenance effort.",
    tags := ["functions", "dry", "duplication", "reuse", "maintenance"] },
  { id := "comments-do-not-make-up-for-bad-code",
    name := "Comments Do Not Make Up for Bad Code",
    category := "comments",
    description := "One of the most common motivations for writing comments is bad code. Rather than spending time writing a comment to explain messy code, spend it cleaning the code. Clear code with few comments is far superior to cluttered code with lots of comments.",
    tags := ["comments", "bad-code", "refactoring", "readability", "self-documenting"] },
  { id := "explain-intent-with-comments",
    name := "Use Comments to Explain Intent",
    category := "comments",
    description := "Sometimes a comment is useful to explain why a decision was made, not what the code does. Comments that explain intent behind a decision provide value that the code cannot express on its own.",
    tags := ["comments", "intent", "why", "decision", "business-rules"] },
  { id := "avoid-redundant-comments",
    name := "Avoid Redundant Comments",
    category := "comments",
    description := "A comment is redundant if it describes something that adequately describes itself. Comments that restate what the code already clearly says are noise and should be removed.",
    tags := ["comments", "redundant", "noise", "clutter", "readability"] },
  { id := "avoid-commented-out-code",
    name := "Don't Comment Out Code",
    category := "comments",
    description := "Commented-out code festers and rots. It confuses other developers who are afraid to delete it. Version control remembers your code — delete it and retrieve it from history if needed.",
    tags := ["comments", "dead-code", "version-control", "cleanup"] },
  { id := "todo-comments",
    name := "Use TODO Comments Sparingly",
    category := "comments",
    description := "TODO comments are acceptable as a temporary reminder of work to be done, but they should not be an excuse to leave bad code in the system. Regularly scan for and address TODO comments.",
    tags := ["comments", "todo", "temporary", "tracking", "technical-debt"] },
  { id := "vertical-openness",
    name := "Vertical Openness Between Concepts",
    category := "formatting",
    description := "Each blank line is a visual cue that identifies a new and separate concept. Blank lines separate the package declaration, imports, and each of the functions. This simple rule has a profound effect on readability.",
    tags := ["formatting", "vertical", "whitespace", "blank-lines", "readability"] },
  { id := "vertical-density",
    name := "Vertical Density for Related Code",
    category := "formatting",
    description := "Lines of code that are tightly related should appear vertically close to each other. Closely related concepts should not be separated into different files unless there is a very strong reason.",
    tags := ["formatting", "vertical", "density", "related-code", "cohesion"] },
  { id := "dependent-functions-close",
    name := "Keep Dependent Functions Close",
    category := "formatting",
    description := "If one function calls another, they should be vertically close in the source file, with the caller above the callee when possible. This gives the program a natural flow and enhances readability.",
    tags := ["formatting", "vertical", "ordering", "caller-callee", "flow"] },
  { id := "horizontal-formatting",
    name := "Keep Lines Short",
    category := "formatting",
    description := "Lines should be short. The old Hollerith limit of 80 is a bit arbitrary, but lines beyond 120 characters are careless. Short lines are easier to read and understand.",
    tags := ["formatting", "horizontal", "line-length", "readability", "wrapping"] },
  { id := "use-exceptions-not-return-codes",
    name := "Use Exceptions, Not Return Codes",
    category := "error-handling",
    description := "Using exceptions rather than return codes separates error handling from the main logic. The calling code is cleaner because it doesn't need to check for error codes after every call.",
    tags := ["error-handling", "exceptions", "return-codes", "clarity", "separation"] },
  { id := "write-try-catch-first",
    name := "Write Try-Catch-Finally First",
    category := "error-handling",
    description := "When writing code that might throw exceptions, start with the try-catch-finally statement. This helps define what the caller can expect, regardless of what goes wrong in the try block.",
    tags := ["error-handling", "try-catch", "exceptions", "structure", "defensive"] },
  { id := "provide-context-with-exceptions",
    name := "Provide Context with Exceptions",
    category := "error-handling",
    description := "Each exception should provide enough context to determine the source and location of an error. Create informative error messages that include the operation attempted and the type of failure.",
    tags := ["error-handling", "context", "messages", "debugging", "diagnostics"] },
  { id := "dont-return-null",
    name := "Don't Return Null",
    category := "error-handling",
    description := "Returning null creates work for the caller and invites null-pointer errors. When tempted to return null, consider throwing an exception or returning a special case object instead.",
    tags := ["error-handling", "null", "null-checks", "exceptions", "special-case"] },
  { id := "dont-pass-null",
    name := "Don't Pass Null as Arguments",
    category := "error-handling",
    description := "Passing null to a function is worse than returning null. Unless the API expects null, avoid passing it as it shifts the burden of null-checking to every function that receives parameters.",
    tags := ["error-handling", "null", "arguments", "defensive", "contracts"] },
  { id := "one-assert-per-test",
    name := "One Assert per Test",
    category := "unit-testing",
    description := "If your project uses tests, they are easiest to understand when each test function contains a single assertion. Multiple assertions can obscure which concept is being tested. When a test fails, you immediately know what's broken.",
    tags := ["unit-testing", "assertions", "single-concept", "clarity", "debugging"] },
  { id := "fast-tests",
    name := "Tests Should Be Fast (F.I.R.S.T.)",
    category := "unit-testing",
    description := "If your project uses tests, fast tests are run frequently. Slow tests are run infrequently. When tests run slow, you won't want to run them frequently, and you'll lose the ability to catch problems early. Aim for tests that run in milliseconds.",
    tags := ["unit-testing", "fast", "first", "performance", "frequency"] },
  { id := "independent-tests",
    name := "Tests Should Be Independent",
    category := "unit-testing",
    description := "If your project uses tests, they should not depend on each other. One test should not set up the conditions for the next. You should be able to run each test independently and in any order.",
    tags := ["unit-testing", "independent", "isolation", "first", "coupling"] },
  { id := "readable-tests",
    name := "Tests Should Be Readable",
    category := "unit-testing",
    description := "If your project uses tests, readability is perhaps even more important than in production code. Tests serve as documentation for how code should be used. Each test should tell a clear story: arrange, act, assert.",
    tags := ["unit-testing", "readability", "documentation", "arrange-act-assert", "naming"] },
  { id := "test-boundary-conditions",
    name := "Test Boundary Conditions",
    category := "unit-testing",
    description := "Bugs often cluster at boundaries — empty arrays, zero values, null inputs, max limits. If your project uses tests, exercise boundary conditions explicitly. It's where most errors hide.",
    tags := ["unit-testing", "boundaries", "edge-cases", "bugs", "defensive"] },
  { id := "classes-should-be-small",
    name := "Classes Should Be Small",
    category := "classes",
    description := "Classes should be small. With functions we measure size by counting physical lines. With classes we count responsibilities. A class name should describe its single responsibility — if it requires 'and' or 'or', it does too much.",
    tags := ["classes", "small", "responsibilities", "srp", "cohesion"] },
  { id := "high-cohesion",
    name := "Maintain High Cohesion",
    category := "classes",
    description := "A class should have a small number of instance variables. Each method should manipulate one or more of those variables. The more variables a method manipulates, the more cohesive it is to its class.",
    tags := ["classes", "cohesion", "instance-variables", "design", "coupling"] },
  { id := "organize-for-change",
    name := "Organize Classes for Change",
    category := "classes",
    description := "Classes should be organized so that change is easy. The Open/Closed Principle states that classes should be open for extension but closed for modification. When a new requirement arrives, it should require adding code, not changing existing code.",
    tags := ["classes", "open-closed", "change", "extension", "modification"] },
  { id := "single-responsibility-principle",
    name := "Single Responsibility Principle (SRP)",
    category := "solid",
    description := "A class should have one, and only one, reason to change. If a class has more than one responsibility, those responsibilities become coupled. A change to one can impair or inhibit the class's ability to meet the others.",
    tags := ["solid", "srp", "single-responsibility", "coupling", "cohesion"] },
  { id := "open-closed-principle",
    name := "Open/Closed Principle (OCP)",
    category := "solid",
    description := "Software entities should be open for extension but closed for modification. You should be able to add new behavior without changing existing code. This is typically achieved through abstractions and polymorphism.",
    tags := ["solid", "ocp", "open-closed", "extension", "polymorphism"] },
  { id := "liskov-substitution-principle",
    name := "Liskov Substitution Principle (LSP)",
    category := "solid",
    description := "Objects of a superclass should be replaceable with objects of a subclass without breaking the application. Subtypes must be substitutable for their base types. Violating this leads to fragile code with instanceof checks.",
    tags := ["solid", "lsp", "liskov", "substitution", "inheritance", "polymorphism"] },
  { id := "interface-segregation-principle",
    name := "Interface Segregation Principle (ISP)",
    category := "solid",
    description := "Clients should not be forced to depend on interfaces they do not use. Fat interfaces should be split into smaller, more specific ones so that clients only need to know about the methods that are of interest to them.",
    tags := ["solid", "isp", "interface-segregation", "fat-interface", "decoupling"] },
  { id := "dependency-inversion-principle",
    name := "Dependency Inversion Principle (DIP)",
    category := "solid",
    description := "High-level modules should not depend on low-level modules. Both should depend on abstractions. Abstractions should not depend on details. Details should depend on abstractions. This reduces coupling between modules.",
    tags := ["solid", "dip", "dependency-inversion", "abstractions", "decoupling", "injection"] },
  { id := "avoid-magic-numbers",
    name := "Replace Magic Numbers with Named Constants",
    category := "code-smells",
    description := "Magic numbers are raw numbers in source code with no explanation. They should be replaced with well-named constants. Named constants add context and make code easier to read and modify.",
    tags := ["code-smells", "magic-numbers", "constants", "readability", "maintenance"] },
  { id := "avoid-dead-code",
    name := "Remove Dead Code",
    category := "code-smells",
    description := "Dead code — code that is never executed — is clutter. It confuses readers and wastes mental energy. Delete it. Version control systems remember it if you ever need it back.",
    tags := ["code-smells", "dead-code", "cleanup", "clutter", "version-control"] },
  { id := "avoid-feature-envy",
    name := "Avoid Feature Envy",
    category := "code-smells",
    description := "A method that uses more features of another class than its own has feature envy. It should probably be moved to the class it envies. Methods should be close to the data they manipulate.",
    tags := ["code-smells", "feature-envy", "coupling", "encapsulation", "move-method"] },
  { id := "avoid-long-parameter-lists",
    name := "Avoid Long Parameter Lists",
    category := "code-smells",
    description := "Functions with many parameters are hard to understand and error-prone. Group related parameters into objects. Long parameter lists are a sign that a function may be doing too much.",
    tags := ["code-smells", "parameters", "arguments", "objects", "readability"] },
  { id := "avoid-inappropriate-intimacy",
    name := "Avoid Inappropriate Intimacy",
    category := "code-smells",
    description := "Classes that reach into the private parts of other classes are too intimate. Minimize what one class knows about the internals of another. Keep interactions at the interface level.",
    tags := ["code-smells", "coupling", "encapsulation", "intimacy", "information-hiding"] },
  { id := "data-abstraction",
    name := "Data Abstraction",
    category := "objects-and-data-structures",
    description := "Hiding implementation is about abstractions, not just putting a layer of functions between variables. A class should expose abstract interfaces that allow users to manipulate the essence of the data without knowing its implementation.",
    tags := ["objects-and-data-structures", "abstraction", "encapsulation", "interface", "hiding"] },
  { id := "law-of-demeter",
    name := "Law of Demeter",
    category := "objects-and-data-structures",
    description := "A method should only call methods on its own object, its parameters, objects it creates, and its direct components. \"Talk to friends, not to strangers.\" Chains like a.getB().getC().doSomething() violate this law.",
    tags := ["objects-and-data-structures", "demeter", "coupling", "train-wreck", "encapsulation"] },
  { id := "data-transfer-objects",
    name := "Use Data Transfer Objects (DTOs)",
    category := "objects-and-data-structures",
    description := "Data structures with public variables and no functions (DTOs) are useful for transferring data between layers. They are not objects — they have no behavior. Keep them pure data holders.",
    tags := ["objects-and-data-structures", "dto", "data-transfer", "layers", "serialization"] },
  { id := "keep-concurrency-separate",
    name := "Keep Concurrency Code Separate",
    category := "concurrency",
    description := "Concurrency-related code has its own lifecycle of development, change, and tuning. Mixing it with other code adds complexity. Keep concurrency-related code separated from other code.",
    tags := ["concurrency", "separation", "async", "parallel", "complexity"] },
  { id := "avoid-shared-mutable-state",
    name := "Avoid Shared Mutable State",
    category := "concurrency",
    description := "Shared mutable state is the root of most concurrency problems. Prefer immutable data, message passing, or isolated state. When sharing is necessary, use proper synchronization.",
    tags := ["concurrency", "shared-state", "mutable", "immutable", "race-condition"] },
  { id := "separate-construction-from-use",
    name := "Separate Construction from Use",
    category := "systems",
    description := "The startup process of constructing objects and wiring dependencies is a separate concern from the runtime logic. Mixing construction with use creates tight coupling and makes the code harder to maintain and extend.",
    tags := ["systems", "construction", "dependency-injection", "coupling", "testing"] },
  { id := "use-dependency-injection",
    name := "Use Dependency Injection",
    category := "systems",
    description := "Rather than having an object create its own dependencies, pass them in from outside. This separates construction from use, improves flexibility, and allows different implementations to be swapped in.",
    tags := ["systems", "dependency-injection", "di", "testing", "decoupling"] },
  { id := "simple-design-runs-all-tests",
    name := "Simple Design Rule 1: Runs All the Tests",
    category := "emergence",
    description := "A system that can be verified is more reliable. Designing for verifiability pushes us toward small, single-purpose classes and loose coupling — which naturally leads to better design. If your project uses tests, they are a valuable tool for verification — but verifiability matters regardless.",
    tags := ["emergence", "testing", "verification", "design", "testability"] },
  { id := "simple-design-no-duplication",
    name := "Simple Design Rule 2: No Duplication",
    category := "emergence",
    description := "Duplication is the primary enemy of a well-designed system. It represents additional work, additional risk, and additional unnecessary complexity. Eliminating duplication often leads to discovering new abstractions.",
    tags := ["emergence", "duplication", "dry", "abstraction", "refactoring"] },
  { id := "simple-design-expressive",
    name := "Simple Design Rule 3: Expressive",
    category := "emergence",
    description := "Code should clearly express the intent of its author. The clearer code is, the less time others will spend understanding it. Use good names, keep functions and classes small, and use standard nomenclature (design patterns). When the project includes tests, ensure they are well-crafted and expressive too.",
    tags := ["emergence", "expressiveness", "readability", "naming", "clarity"] },
  { id := "simple-design-minimal",
    name := "Simple Design Rule 4: Minimal Classes and Methods",
    category := "emergence",
    description := "Keep the overall count of classes and methods low. Too many tiny classes and methods can be as problematic as too few large ones. Be pragmatic — this rule has the lowest priority of the four simple design rules.",
    tags := ["emergence", "minimal", "pragmatism", "over-engineering", "simplicity"] }
]

/-- The first corpus entry (`use-intention-revealing-names`), used to
instantiate corpus-level theorems at a concrete principle. -/
def samplePrinciple : CleanCodePrinciple :=
  PRINCIPLES.getD 0 { id := "", name := "", category := "", description := "", tags := [] }

/-- A corpus entry of category `functions` (`keep-functions-small`), used to
instantiate category-boost theorems at a concrete principle. -/
def sampleFunctionsPrinciple : CleanCodePrinciple :=
  PRINCIPLES.getD 10 { id := "", name := "", category := "", description := "", tags := [] }

lemma foldl_add_sum {β : Type} (g : β → Int) (l : List β) : ∀ a : Int,
    l.foldl (fun s x => s + g x) a = a + (l.map g).sum := by
  induction l with
  | nil => intro a; simp
  | cons x xs ih => intro a; simp only [List.foldl_cons, List.map_cons, List.sum_cons, ih]; ring

lemma tags_foldl (nq : List Char) (tags : List String) : ∀ a : Int,
    tags.foldl (fun score tag =>
      if tag.data = nq then score + 70
      else if containsSub tag.data nq || containsSub nq tag.data then score + 50
      else score) a = a + (tags.map (tagContribution nq)).sum := by
  induction tags with
  | nil => intro a; simp
  | cons t ts ih =>
    intro a
    simp only [List.foldl_cons, List.map_cons, List.sum_cons, ih, tagContribution]
    split_ifs <;> ring

/-- C1: if a principle's id equals the normalized query (lowercased, trimmed),
`scorePrincipleByQuery` returns exactly 100 with no other contribution added;
in particular every corpus principle scores exactly 100 against its own id. -/
theorem scoring_C1 : (∀ (p : CleanCodePrinciple) (q : String),
      p.id.data = jsTrim (lowerData q) → scorePrincipleByQuery p q = 100) ∧
    (∀ p ∈ PRINCIPLES, scorePrincipleByQuery p p.id = 100) := by
  constructor
  · intro p q h
    simp [scorePrincipleByQuery, h]
  · decide

/-- Witness for C1 at concrete inputs: the first corpus principle against a
mixed-case padded spelling of its id, and against its id itself. -/
theorem scoring_C1_witness :
    scorePrincipleByQuery samplePrinciple "  Use-Intention-Revealing-Names  " = 100 ∧
    scorePrincipleByQuery samplePrinciple samplePrinciple.id = 100 :=
  ⟨scoring_C1.1 samplePrinciple _ (by set_option maxRecDepth 4096 in decide),
   scoring_C1.2 samplePrinciple (by set_option maxRecDepth 4096 in decide)⟩

/-- C2: for a query whose normalization differs from the principle's id, the
score decomposes additively, and each tag contributes exactly once, through
`tagContribution`: 70 on an exact match (taking precedence even when the
partial condition also holds), else 50 on a substring match in either
direction, else 0. -/
theorem scoring_C2 (p : CleanCodePrinciple) (q : String)
    (h : p.id.data ≠ jsTrim (lowerData q)) :
    scorePrincipleByQuery p q =
      (if containsSub (lowerData p.name) (jsTrim (lowerData q)) then 80 else 0)
      + (p.tags.map (tagContribution (jsTrim (lowerData q)))).sum
      + (if containsSub (lowerData p.description) (jsTrim (lowerData q)) then 30 else 0)
      + (if containsSub p.category.data (jsTrim (lowerData q)) then 20 else 0)
    ∧ ∀ tag : String, tag.data = jsTrim (lowerData q) →
        tagContribution (jsTrim (lowerData q)) tag = 70 := by
  constructor
  · simp only [scorePrincipleByQuery, if_neg h, tags_foldl]
    split_ifs <;> ring
  · intro tag htag
    simp [tagContribution, htag]

/-- Witness for C2: the decomposition evaluated for the first corpus principle
against the query `naming`, whose normalization differs from the id. -/
theorem scoring_C2_witness :
    scorePrincipleByQuery samplePrinciple "naming" =
      (if containsSub (lowerData samplePrinciple.name) (jsTrim (lowerData "naming")) then 80 else 0)
      + (samplePrinciple.tags.map (tagContribution (jsTrim (lowerData "naming")))).sum
      + (if containsSub (lowerData samplePrinciple.description) (jsTrim (lowerData "naming")) then 30 else 0)
      + (if containsSub samplePrinciple.category.data (jsTrim (lowerData "naming")) then 20 else 0) :=
  (scoring_C2 samplePrinciple "naming" (by decide)).1

/-- C4: `scorePrincipleByTokens` equals the sum over the tokens of the
single-query score (each token scored independently, with its own possible
exact-id short-circuit) plus 15 times the boost count stored for the
principle's category, 0 when the category is absent from the map. -/
theorem scoring_C4 (p : CleanCodePrinciple) (tokens : List String)
    (categoryBoosts : List (String × Int)) :
    scorePrincipleByTokens p tokens categoryBoosts =
      (tokens.map (scorePrincipleByQuery p)).sum
      + 15 * (mapGet categoryBoosts p.category).getD 0 := by
  simp only [scorePrincipleByTokens, foldl_add_sum]
  ring

lemma filter_orderedInsert {α : Type} (s : Int) (x : α × Int) (l : List (α × Int)) :
    (List.orderedInsert (fun a b => b.2 ≤ a.2) x l).filter (fun y => decide (y.2 = s)) =
      if x.2 = s then x :: l.filter (fun y => decide (y.2 = s))
      else l.filter (fun y => decide (y.2 = s)) := by
  induction l with
  | nil =>
    simp only [List.orderedInsert, List.filter]
    split_ifs <;> simp_all
  | cons b t ih =>
    by_cases hr : (b.2 : Int) ≤ x.2
    · simp only [List.orderedInsert, if_pos hr, List.filter_cons]
      split_ifs <;> simp_all
    · have hlt : x.2 < b.2 := by omega
      simp only [List.orderedInsert, if_neg hr, List.filter_cons, ih]
      split_ifs <;> simp_all


lemma filter_insertionSort {α : Type} (s : Int) (l : List (α × Int)) :
    (l.insertionSort (fun a b => b.2 ≤ a.2)).filter (fun y => decide (y.2 = s)) =
      l.filter (fun y => decide (y.2 = s)) := by
  induction l with
  | nil => rfl
  | cons x t ih =>
    simp only [List.insertionSort, filter_orderedInsert, ih, List.filter_cons]
    split_ifs <;> simp_all

lemma filter_map_fst {α : Type} (l : List (α × Int)) (q : α → Bool) :
    (l.map (fun x => x.1)).filter q = (l.filter (fun x => q x.1)).map (fun x => x.1) := by
  induction l with
  | nil => rfl
  | cons x t ih =>
    simp only [List.map_cons, List.filter_cons, ih]
    split_ifs <;> simp_all

lemma filter_map_pair {α : Type} (l : List α) (f : α → Int) (q : α × Int → Bool) :
    (l.map (fun p => (p, f p))).filter q =
      (l.filter (fun p => q (p, f p))).map (fun p => (p, f p)) := by
  induction l with
  | nil => rfl
  | cons x t ih =>
    simp only [List.map_cons, List.filter_cons, ih]
    split_ifs <;> simp_all

lemma mem_rank_sorted {α : Type} {l : List α} {f : α → Int} {x : α × Int}
    (hx : x ∈ ((l.map (fun p => (p, f p))).filter (fun y => decide (0 < y.2))).insertionSort
        (fun a b => b.2 ≤ a.2)) :
    x.2 = f x.1 ∧ 0 < x.2 := by
  have hmem : x ∈ (l.map (fun p => (p, f p))).filter (fun y => decide (0 < y.2)) :=
    (List.perm_insertionSort _ _).mem_iff.mp hx
  have hpos : 0 < x.2 := by simpa using List.of_mem_filter hmem
  have hmap : x ∈ l.map (fun p => (p, f p)) := List.mem_of_mem_filter hmem
  obtain ⟨p, _, rfl⟩ := List.mem_map.mp hmap
  exact ⟨rfl, hpos⟩

lemma filter_filter2 {β : Type} (p q : β → Bool) (l : List β) :
    (l.filter p).filter q = l.filter (fun x => p x && q x) := by
  induction l with
  | nil => rfl
  | cons x t ih =>
    simp only [List.filter_cons, ih]
    by_cases hp : p x <;> by_cases hq : q x <;> simp_all [List.filter_cons]

lemma pair_filter_fst {α : Type} (l : List α) (f : α → Int) (q : α × Int → Bool) :
    ((l.map (fun p => (p, f p))).filter q).map (fun x => x.1) =
      l.filter (fun p => q (p, f p)) := by
  induction l with
  | nil => rfl
  | cons x t ih =>
    simp only [List.map_cons, List.filter_cons]
    split_ifs <;> simp_all

/-- C3: `rankPrinciples` returns exactly the principles of strictly positive
score (a permutation of the positive-score sublist), ordered by score
descending (every adjacent pair is non-increasing), and the tie-break is
stable: for every score value, the returned principles carrying that value
appear in exactly their input order (the filtered sublists agree). -/
theorem ranking_C3 {α : Type} (l : List α) (f : α → Int) :
    (∀ p ∈ rankPrinciples l f, 0 < f p) ∧
    (rankPrinciples l f).Perm (l.filter (fun p => decide (0 < f p))) ∧
    List.Chain' (fun a b => f b ≤ f a) (rankPrinciples l f) ∧
    ∀ s : Int, (rankPrinciples l f).filter (fun p => decide (f p = s)) =
      (l.filter (fun p => decide (0 < f p))).filter (fun p => decide (f p = s)) := by
  haveI htot : IsTotal (α × Int) (fun a b => b.2 ≤ a.2) :=
    ⟨fun a b => (Int.le_total a.2 b.2).symm⟩
  haveI htrans : IsTrans (α × Int) (fun a b => b.2 ≤ a.2) :=
    ⟨fun _ _ _ hab hbc => le_trans hbc hab⟩
  have hperm := List.perm_insertionSort (fun a b : α × Int => b.2 ≤ a.2)
    ((l.map (fun p => (p, f p))).filter (fun y => decide (0 < y.2)))
  have hmapfst : ((l.map (fun p => (p, f p))).filter (fun y => decide (0 < y.2))).map
      (fun x => x.1) = l.filter (fun p => decide (0 < f p)) :=
    pair_filter_fst l f (fun y => decide (0 < y.2))
  refine ⟨?_, ?_, ?_, ?_⟩
  · intro p hp
    simp only [rankPrinciples, List.mem_map] at hp
    obtain ⟨x, hx, rfl⟩ := hp
    obtain ⟨he, hpos⟩ := mem_rank_sorted hx
    omega
  · simp only [rankPrinciples]
    exact hmapfst ▸ (hperm.map (fun x => x.1))
  · have hsorted := List.sorted_insertionSort (fun a b : α × Int => b.2 ≤ a.2)
      ((l.map (fun p => (p, f p))).filter (fun y => decide (0 < y.2)))
    have hpw : (((l.map (fun p => (p, f p))).filter (fun y => decide (0 < y.2))).insertionSort
        (fun a b => b.2 ≤ a.2)).Pairwise (fun x y => f y.1 ≤ f x.1) := by
      refine hsorted.imp_of_mem ?_
      intro x y hx hy hr
      have h1 := (mem_rank_sorted (l := l) (f := f) hx).1
      have h2 := (mem_rank_sorted (l := l) (f := f) hy).1
      omega
    simp only [rankPrinciples]
    rw [List.chain'_map]
    exact hpw.chain'
  · intro s
    have hcong : ((((l.map (fun p => (p, f p))).filter (fun y => decide (0 < y.2))).insertionSort
          (fun a b => b.2 ≤ a.2)).filter (fun x => decide (f x.1 = s))) =
        ((((l.map (fun p => (p, f p))).filter (fun y => decide (0 < y.2))).insertionSort
          (fun a b => b.2 ≤ a.2)).filter (fun x => decide (x.2 = s))) := by
      refine List.filter_congr ?_
      intro x hx
      have := (mem_rank_sorted (l := l) (f := f) hx).1
      simp [this]
    simp only [rankPrinciples]
    rw [filter_map_fst, hcong, filter_insertionSort, filter_filter2, pair_filter_fst,
      filter_filter2]

lemma rank_perm_filter {α : Type} (l : List α) (f : α → Int) :
    (rankPrinciples l f).Perm (l.filter (fun p => decide (0 < f p))) := by
  haveI htot : IsTotal (α × Int) (fun a b => b.2 ≤ a.2) :=
    ⟨fun a b => (Int.le_total a.2 b.2).symm⟩
  haveI htrans : IsTrans (α × Int) (fun a b => b.2 ≤ a.2) :=
    ⟨fun _ _ _ hab hbc => le_trans hbc hab⟩
  have hperm := List.perm_insertionSort (fun a b : α × Int => b.2 ≤ a.2)
    ((l.map (fun p => (p, f p))).filter (fun y => decide (0 < y.2)))
  have hmapfst : ((l.map (fun p => (p, f p))).filter (fun y => decide (0 < y.2))).map
      (fun x => x.1) = l.filter (fun p => decide (0 < f p)) :=
    pair_filter_fst l f (fun y => decide (0 < y.2))
  simp only [rankPrinciples]
  exact hmapfst ▸ (hperm.map (fun x => x.1))

lemma rank_eq_nil_of_nonpos {α : Type} (l : List α) (f : α → Int)
    (h : ∀ p ∈ l, f p ≤ 0) : rankPrinciples l f = [] := by
  have hfil : l.filter (fun p => decide (0 < f p)) = [] := by
    rw [List.filter_eq_nil_iff]
    intro a ha
    have := h a ha
    simp only [decide_eq_true_eq]
    omega
  have hperm := rank_perm_filter l f
  rw [hfil] at hperm
  exact hperm.eq_nil

lemma rank_perm_self_of_pos {α : Type} (l : List α) (f : α → Int)
    (h : ∀ p ∈ l, 0 < f p) : (rankPrinciples l f).Perm l := by
  have hfil : l.filter (fun p => decide (0 < f p)) = l := by
    rw [List.filter_eq_self]
    intro a ha
    simpa using h a ha
  have hperm := rank_perm_filter l f
  rw [hfil] at hperm
  exact hperm

/-- C5: the empty query is legal: it normalizes to the empty string, the
exact-id branch does not fire, the name, description and category branches
match trivially and every tag matches partially, so every corpus principle
scores exactly 130 + 50·(number of tags) > 0 and the single-query ranking
returns the whole corpus (a permutation of `PRINCIPLES`), ordered only by the
tag-contribution differences. -/
theorem scoring_C5 :
    (∀ p ∈ PRINCIPLES, scorePrincipleByQuery p "" = 130 + 50 * p.tags.length) ∧
    (rankPrinciples PRINCIPLES (fun p => scorePrincipleByQuery p "")).Perm PRINCIPLES := by
  constructor
  · set_option maxRecDepth 8192 in decide
  · refine rank_perm_self_of_pos _ _ ?_
    set_option maxRecDepth 8192 in decide

/-- Witness for C5: the empty-query score of the first corpus principle. -/
theorem scoring_C5_witness :
    scorePrincipleByQuery samplePrinciple "" = 130 + 50 * samplePrinciple.tags.length :=
  scoring_C5.1 samplePrinciple (by set_option maxRecDepth 2048 in decide)

/-- C6: when every principle scores non-positively, ranking returns the empty
list rather than an error, and concretely the query `zzzznotaword` yields an
empty result on both the direct single-query path and the context path. -/
theorem ranking_C6 :
    (∀ {α : Type} (l : List α) (f : α → Int), (∀ p ∈ l, f p ≤ 0) → rankPrinciples l f = []) ∧
    rankPrinciples PRINCIPLES (fun p => scorePrincipleByQuery p "zzzznotaword") = [] ∧
    rankPrinciples PRINCIPLES (fun p => scorePrincipleByTokens p
      (removeStopWords (tokenize "zzzznotaword"))
      (detectCategoryBoosts (removeStopWords (tokenize "zzzznotaword")))) = [] := by
  refine ⟨fun l f h => rank_eq_nil_of_nonpos l f h, ?_, ?_⟩
  · exact rank_eq_nil_of_nonpos _ _ (by set_option maxRecDepth 8192 in decide)
  · exact rank_eq_nil_of_nonpos _ _ (by set_option maxRecDepth 8192 in decide)

/-- Witness for C6 at a concrete input: a one-element list under the constant
zero scorer ranks to the empty list. -/
theorem ranking_C6_witness :
    rankPrinciples [samplePrinciple] (fun _ => 0) = [] :=
  ranking_C6.1 [samplePrinciple] (fun _ => 0) (by simp)

/-- C10: on the context path, an input whose token stream is empty after
tokenization and stop-word removal gives every principle the score exactly 0
(no tokens to sum, empty boost map), so the ranked result is empty. -/
theorem ranking_C10 (text : String) (l : List CleanCodePrinciple)
    (h : removeStopWords (tokenize text) = []) :
    (∀ p : CleanCodePrinciple, scorePrincipleByTokens p (removeStopWords (tokenize text))
      (detectCategoryBoosts (removeStopWords (tokenize text))) = 0) ∧
    rankPrinciples l (fun p => scorePrincipleByTokens p (removeStopWords (tokenize text))
      (detectCategoryBoosts (removeStopWords (tokenize text)))) = [] := by
  rw [h]
  constructor
  · intro p
    rfl
  · exact rank_eq_nil_of_nonpos _ _ (fun p _ => le_of_eq rfl)

/-- Witness for C10: the text `the` (a stop word) tokenizes to an empty token
stream and context-ranks the whole corpus to the empty list. -/
theorem ranking_C10_witness :
    rankPrinciples PRINCIPLES (fun p => scorePrincipleByTokens p
      (removeStopWords (tokenize "the"))
      (detectCategoryBoosts (removeStopWords (tokenize "the")))) = [] :=
  (ranking_C10 "the" PRINCIPLES (by decide)).2

lemma mapGet_mapSet (m : List (String × Int)) (k : String) (v : Int) (c : String) :
    mapGet (mapSet m k v) c = if k = c then some v else mapGet m c := by
  induction m with
  | nil =>
    simp only [mapSet, mapGet]
  | cons p rest ih =>
    by_cases hpk : p.1 = k
    · subst hpk
      simp only [mapSet, if_pos rfl, mapGet]
      by_cases hpc : p.1 = c <;> simp [hpc]
    · simp only [mapSet, if_neg hpk, mapGet, ih]
      by_cases hpc : p.1 = c
      · have hkc : ¬ k = c := fun h => hpk (h ▸ hpc)
        simp [hpc, hkc]
      · simp [hpc]

lemma boosts_getD (c : String) : ∀ (T : List String) (m : List (String × Int)),
    (mapGet (T.foldl (fun boosts token =>
      match categoryKeyword token with
      | some category => mapSet boosts category ((mapGet boosts category).getD 0 + 1)
      | none => boosts) m) c).getD 0
    = (mapGet m c).getD 0 + (T.countP (fun t => categoryKeyword t == some c) : Int) := by
  intro T
  induction T with
  | nil => intro m; simp
  | cons t T ih =>
    intro m
    simp only [List.foldl_cons, List.countP_cons]
    cases hk : categoryKeyword t with
    | none =>
      simp only [hk, ih]
      norm_num [show ((none : Option String) == some c) = false from rfl]
    | some c2 =>
      simp only [hk, ih, mapGet_mapSet]
      by_cases hc : c2 = c
      · subst hc
        simp only [if_pos rfl, Option.getD_some,
          show (some c2 == some c2) = true from by simp]
        push_cast
        simp
        ring
      · simp only [if_neg hc, show (some c2 == some c) = false from by simp [hc]]
        push_cast
        ring

/-- C8: `detectCategoryBoosts` is invariant under permutation of its token
list: permuted token lists produce boost maps assigning the same count to
every category. -/
theorem tokenizer_C8 (T T2 : List String) (hperm : T.Perm T2) (c : String) :
    (mapGet (detectCategoryBoosts T) c).getD 0 =
      (mapGet (detectCategoryBoosts T2) c).getD 0 := by
  simp only [detectCategoryBoosts]
  rw [boosts_getD, boosts_getD]
  rw [hperm.countP_eq]

/-- Witness for C8 at concrete inputs: swapping two keyword tokens leaves the
boost count of `functions` unchanged. -/
theorem tokenizer_C8_witness :
    (mapGet (detectCategoryBoosts ["function", "name"]) "functions").getD 0 =
      (mapGet (detectCategoryBoosts ["name", "function"]) "functions").getD 0 :=
  tokenizer_C8 _ _ (List.Perm.swap "name" "function" []) "functions"

/-- C9: the context `my function has too many parameters` tokenizes (after
stop-word removal) to a list containing `function` and `parameters`, both
mapped to category `functions`, so the boost count of `functions` is exactly
2, and every principle of category `functions` receives exactly 30 (2 × 15)
on top of its summed per-token score, even absent any textual token match. -/
theorem tokenizer_C9 :
    ("function" ∈ removeStopWords (tokenize "my function has too many parameters") ∧
     "parameters" ∈ removeStopWords (tokenize "my function has too many parameters")) ∧
    (mapGet (detectCategoryBoosts
        (removeStopWords (tokenize "my function has too many parameters"))) "functions").getD 0
      = 2 ∧
    ∀ p : CleanCodePrinciple, p.category = "functions" →
      scorePrincipleByTokens p (removeStopWords (tokenize "my function has too many parameters"))
        (detectCategoryBoosts (removeStopWords (tokenize "my function has too many parameters")))
      = ((removeStopWords (tokenize "my function has too many parameters")).map
          (scorePrincipleByQuery p)).sum + 30 := by
  refine ⟨⟨by decide, by decide⟩, by decide, ?_⟩
  intro p hp
  simp only [scorePrincipleByTokens, foldl_add_sum]
  rw [hp]
  have hb : (mapGet (detectCategoryBoosts
      (removeStopWords (tokenize "my function has too many parameters"))) "functions").getD 0
      = 2 := by decide
  rw [hb]
  ring

/-- Witness for C9: the boost decomposition evaluated at the corpus principle
`keep-functions-small`, whose category is `functions`. -/
theorem tokenizer_C9_witness :
    scorePrincipleByTokens sampleFunctionsPrinciple
      (removeStopWords (tokenize "my function has too many parameters"))
      (detectCategoryBoosts (removeStopWords (tokenize "my function has too many parameters")))
    = ((removeStopWords (tokenize "my function has too many parameters")).map
        (scorePrincipleByQuery sampleFunctionsPrinciple)).sum + 30 :=
  tokenizer_C9.2.2 sampleFunctionsPrinciple (by decide)

lemma toLower_isTokenChar {c : Char} (h : isTokenChar c = true) : c.toLower = c := by
  simp only [isTokenChar, Bool.or_eq_true, Bool.and_eq_true, decide_eq_true_eq,
    beq_iff_eq] at h
  unfold Char.toLower
  rw [if_neg]
  rintro ⟨h1, h2⟩
  rcases h with (⟨ha, hb⟩ | ⟨ha, hb⟩) | ha <;> omega

lemma toLower_space : Char.toLower ' ' = ' ' := by decide

lemma map_toLower_id {cs : List Char}
    (h : ∀ ch ∈ cs, isTokenChar ch = true ∨ ch = ' ') : cs.map Char.toLower = cs := by
  induction cs with
  | nil => rfl
  | cons c rest ih =>
    have hc := h c (List.mem_cons_self c rest)
    have hrest := ih (fun ch hch => h ch (List.mem_cons_of_mem c hch))
    rcases hc with hc | hc
    · simp [List.map_cons, toLower_isTokenChar hc, hrest]
    · subst hc
      simp [List.map_cons, toLower_space, hrest]

lemma runsAux_token_facts : ∀ (cs acc : List Char),
    (∀ ch ∈ acc, isTokenChar ch = true) →
    ∀ r ∈ runsAux acc cs, r ≠ [] ∧ ∀ ch ∈ r, isTokenChar ch = true := by
  intro cs
  induction cs with
  | nil =>
    intro acc hacc r hr
    simp only [runsAux] at hr
    split at hr
    · simp at hr
    · rename_i hne
      simp only [List.mem_singleton] at hr
      subst hr
      exact ⟨hne, hacc⟩
  | cons c rest ih =>
    intro acc hacc r hr
    simp only [runsAux] at hr
    split at hr
    · rename_i htok
      refine ih (acc ++ [c]) ?_ r hr
      intro ch hch
      rcases List.mem_append.mp hch with h1 | h1
      · exact hacc ch h1
      · simp only [List.mem_singleton] at h1
        subst h1
        exact htok
    · split at hr
      · exact ih [] (by simp) r hr
      · rename_i hne
        rcases List.mem_cons.mp hr with h1 | h1
        · subst h1
          exact ⟨hne, hacc⟩
        · exact ih [] (by simp) r h1

lemma runsAux_append_token : ∀ (w acc cs : List Char),
    (∀ ch ∈ w, isTokenChar ch = true) →
    runsAux acc (w ++ cs) = runsAux (acc ++ w) cs := by
  intro w
  induction w with
  | nil => intro acc cs _; simp
  | cons c w2 ih =>
    intro acc cs hw
    have hc : isTokenChar c = true := hw c (List.mem_cons_self c w2)
    have hw2 : ∀ ch ∈ w2, isTokenChar ch = true :=
      fun ch hch => hw ch (List.mem_cons_of_mem c hch)
    simp only [List.cons_append, runsAux, if_pos hc]
    rw [show w2.append cs = w2 ++ cs from rfl, ih (acc ++ [c]) cs hw2]
    simp

lemma runsAux_cons_space (acc cs : List Char) :
    runsAux acc (' ' :: cs) =
      if acc = [] then runsAux [] cs else acc :: runsAux [] cs := by
  simp [runsAux, show isTokenChar ' ' = false from by decide]

lemma mk_data : ∀ s : String, String.mk s.data = s := fun ⟨_⟩ => rfl

lemma joinWithSpace_chars : ∀ ts : List String,
    (∀ t ∈ ts, ∀ ch ∈ t.data, isTokenChar ch = true) →
    ∀ ch ∈ (joinWithSpace ts).data, isTokenChar ch = true ∨ ch = ' ' := by
  intro ts
  induction ts with
  | nil => intro _ ch hch; simp [joinWithSpace] at hch
  | cons t rest ih =>
    intro h ch hch
    cases rest with
    | nil =>
      simp only [joinWithSpace] at hch
      exact Or.inl (h t (List.mem_cons_self t []) ch hch)
    | cons r rest2 =>
      simp only [joinWithSpace, String.data_append] at hch
      rcases List.mem_append.mp hch with h1 | h1
      · rcases List.mem_append.mp h1 with h2 | h2
        · exact Or.inl (h t (List.mem_cons_self t _) ch h2)
        · simp only [show (" " : String).data = [' '] from rfl, List.mem_singleton] at h2
          exact Or.inr h2
      · exact ih (fun u hu => h u (List.mem_cons_of_mem t hu)) ch h1

lemma runsAux_join : ∀ ts : List String,
    (∀ t ∈ ts, t.data ≠ [] ∧ ∀ ch ∈ t.data, isTokenChar ch = true) →
    runsAux [] (joinWithSpace ts).data = ts.map (fun t => t.data) := by
  intro ts
  induction ts with
  | nil => intro _; simp [joinWithSpace, runsAux]
  | cons t rest ih =>
    intro h
    have hne := (h t (List.mem_cons_self t rest)).1
    have htok := (h t (List.mem_cons_self t rest)).2
    cases rest with
    | nil =>
      simp only [joinWithSpace, List.map_cons, List.map_nil]
      have happ := runsAux_append_token t.data [] [] htok
      simp only [List.append_nil, List.nil_append] at happ
      rw [happ]
      simp [runsAux, hne]
    | cons r rest2 =>
      simp only [joinWithSpace, String.data_append, List.map_cons]
      rw [List.append_assoc, List.singleton_append]
      have happ := runsAux_append_token t.data []
        (' ' :: (joinWithSpace (r :: rest2)).data) htok
      simp only [List.nil_append] at happ
      rw [happ, runsAux_cons_space, if_neg hne,
        ih (fun u hu => h u (List.mem_cons_of_mem t hu))]
      simp [joinWithSpace]

lemma map_mk_data : ∀ ts : List String,
    (ts.map (fun t => t.data)).map (fun cs => String.mk cs) = ts := by
  intro ts
  induction ts with
  | nil => rfl
  | cons t rest ih => simp only [List.map_cons, ih, mk_data]

lemma tokenize_join (ts : List String)
    (h : ∀ t ∈ ts, 1 < t.data.length ∧ ∀ ch ∈ t.data, isTokenChar ch = true) :
    tokenize (joinWithSpace ts) = ts := by
  have hne : ∀ t ∈ ts, t.data ≠ [] := by
    intro t ht hnil
    have := (h t ht).1
    rw [hnil] at this
    simp at this
  have hlower : lowerData (joinWithSpace ts) = (joinWithSpace ts).data := by
    simp only [lowerData]
    exact map_toLower_id (joinWithSpace_chars ts (fun t ht => (h t ht).2))
  simp only [tokenize, hlower]
  rw [runsAux_join ts (fun t ht => ⟨hne t ht, (h t ht).2⟩), map_mk_data]
  rw [List.filter_eq_self]
  intro t ht
  obtain ⟨cs⟩ := t
  simpa using (h _ ht).1

lemma removeStopWords_eq_self (ts : List String)
    (h : ∀ t ∈ ts, STOP_WORDS.contains t = false) : removeStopWords ts = ts := by
  simp only [removeStopWords]
  rw [List.filter_eq_self]
  intro t ht
  rw [h t ht]
  rfl

lemma pipeline_facts (text : String) : ∀ t ∈ removeStopWords (tokenize text),
    (1 < t.data.length ∧ ∀ ch ∈ t.data, isTokenChar ch = true) ∧
      STOP_WORDS.contains t = false := by
  intro t ht
  simp only [removeStopWords] at ht
  have hsw := List.of_mem_filter ht
  have htok := List.mem_of_mem_filter ht
  simp only [tokenize] at htok
  have hlen := List.of_mem_filter htok
  have hmap := List.mem_of_mem_filter htok
  obtain ⟨r, hr, rfl⟩ := List.mem_map.mp hmap
  have hfacts := runsAux_token_facts (lowerData text) [] (by simp) r hr
  refine ⟨⟨?_, ?_⟩, ?_⟩
  · simpa using hlen
  · exact hfacts.2
  · rw [Bool.not_eq_true'] at hsw
    exact hsw

/-- C7: the composition of `tokenize` and `removeStopWords` is idempotent:
re-tokenizing the space-joined output of one pass returns it unchanged (every
output token is built only of kept characters, has length greater than 1 and
is no stop word, so it survives reprocessing). -/
theorem tokenizer_C7 (text : String) :
    removeStopWords (tokenize (joinWithSpace (removeStopWords (tokenize text)))) =
      removeStopWords (tokenize text) := by
  have hf := pipeline_facts text
  rw [tokenize_join _ (fun t ht => (hf t ht).1)]
  exact removeStopWords_eq_self _ (fun t ht => (hf t ht).2)
